import Mathlib

/-!
Verification of the node-pool provider adapter and the GKE cluster
lifecycle controller of crossplaneio/stack-gcp.

The node-pool adapter (package nodepool: GenerateNodePool, GenerateConfig,
GenerateObservation, GenerateNodePoolUpdate, LateInitializeSpec, IsUpToDate)
is embedded from its source.  Go pointers to structures become `Option`,
`[]*T` becomes `List (Option T)` (a slice whose elements may be nil),
`[]string` becomes `List String`, `map[string]string` becomes
`List (String × String)` (the code only copies or compares maps wholesale),
and int64 becomes `Int` (the code never does arithmetic on them).
`nil` and empty collections are identified, as every `len`-based test in the
source does.  Go's in-place mutation of an out-parameter becomes explicit
state passing: a function mutating `pool` takes it and returns the updated
value.

The API structure types (apis/container/v1beta1) and the generic helpers of
package gcp (pkg/clients) are not part of the given source files; they are
modelled from the spec where so marked.
-/

namespace v1beta1

/-- Desired autoscaler settings of a node pool (apis/container/v1beta1). -/
structure NodePoolAutoscaling where
  Autoprovisioned : Option Bool
  Enabled : Option Bool
  MaxNodeCount : Option Int
  MinNodeCount : Option Int
deriving DecidableEq

/-- A requested hardware accelerator (apis/container/v1beta1). -/
structure AcceleratorConfig where
  AcceleratorCount : Int
  AcceleratorType : String
deriving DecidableEq

/-- Sandbox settings of a node (apis/container/v1beta1). -/
structure SandboxConfig where
  SandboxType : String
deriving DecidableEq

/-- Shielded-instance settings of a node (apis/container/v1beta1). -/
structure ShieldedInstanceConfig where
  EnableIntegrityMonitoring : Option Bool
  EnableSecureBoot : Option Bool
deriving DecidableEq

/-- A scheduling taint of a node (apis/container/v1beta1). -/
structure NodeTaint where
  Effect : String
  Key : String
  Value : String
deriving DecidableEq

/-- Workload metadata settings of a node (apis/container/v1beta1). -/
structure WorkloadMetadataConfig where
  NodeMetadata : String
deriving DecidableEq

/-- Desired node configuration (apis/container/v1beta1). -/
structure NodeConfig where
  Accelerators : List (Option AcceleratorConfig)
  DiskSizeGb : Option Int
  DiskType : Option String
  ImageType : Option String
  Labels : List (String × String)
  LocalSsdCount : Option Int
  MachineType : Option String
  Metadata : List (String × String)
  MinCPUPlatform : Option String
  OauthScopes : List String
  Preemptible : Option Bool
  SandboxConfig : Option SandboxConfig
  ServiceAccount : Option String
  ShieldedInstanceConfig : Option ShieldedInstanceConfig
  Tags : List String
  Taints : List (Option NodeTaint)
  WorkloadMetadataConfig : Option WorkloadMetadataConfig
deriving DecidableEq

/-- Desired node-management settings (apis/container/v1beta1). -/
structure NodeManagementSpec where
  AutoRepair : Option Bool
  AutoUpgrade : Option Bool
deriving DecidableEq

/-- Desired pods-per-node constraint (apis/container/v1beta1). -/
structure MaxPodsConstraint where
  MaxPodsPerNode : Int
deriving DecidableEq

/-- The desired parameters of a node pool (apis/container/v1beta1).
`Cluster` holds the reference to the owning cluster; it has no counterpart
on the provider object. -/
structure NodePoolParameters where
  Autoscaling : Option NodePoolAutoscaling
  Cluster : Option String
  Config : Option NodeConfig
  InitialNodeCount : Option Int
  Locations : List String
  Management : Option NodeManagementSpec
  MaxPodsConstraint : Option MaxPodsConstraint
  Version : Option String
deriving DecidableEq

/-- An observed diagnostic condition (apis/container/v1beta1). -/
structure StatusCondition where
  Code : String
  Message : String
deriving DecidableEq

/-- Observed auto-upgrade settings (apis/container/v1beta1). -/
structure AutoUpgradeOptions where
  AutoUpgradeStartTime : String
  Description : String
deriving DecidableEq

/-- Observed management status (apis/container/v1beta1). -/
structure NodeManagementStatus where
  UpgradeOptions : Option AutoUpgradeOptions
deriving DecidableEq

/-- The observed status of a node pool (apis/container/v1beta1). -/
structure NodePoolObservation where
  Conditions : List (Option StatusCondition)
  InstanceGroupUrls : List String
  Management : Option NodeManagementStatus
  PodIpv4CidrSize : Int
  SelfLink : String
  Status : String
  StatusMessage : String
deriving DecidableEq

/-- The Go zero value `v1beta1.NodePoolAutoscaling{}`. -/
def NodePoolAutoscaling.empty : NodePoolAutoscaling :=
  { Autoprovisioned := none, Enabled := none, MaxNodeCount := none, MinNodeCount := none }

/-- The Go zero value `v1beta1.NodeConfig{}`. -/
def NodeConfig.empty : NodeConfig :=
  { Accelerators := [], DiskSizeGb := none, DiskType := none, ImageType := none
  , Labels := [], LocalSsdCount := none, MachineType := none, Metadata := []
  , MinCPUPlatform := none, OauthScopes := [], Preemptible := none
  , SandboxConfig := none, ServiceAccount := none, ShieldedInstanceConfig := none
  , Tags := [], Taints := [], WorkloadMetadataConfig := none }

/-- The Go zero value `v1beta1.ShieldedInstanceConfig{}`. -/
def ShieldedInstanceConfig.empty : ShieldedInstanceConfig :=
  { EnableIntegrityMonitoring := none, EnableSecureBoot := none }

/-- The Go zero value `v1beta1.NodeManagementSpec{}`. -/
def NodeManagementSpec.empty : NodeManagementSpec :=
  { AutoRepair := none, AutoUpgrade := none }

/-- The Go zero value `v1beta1.NodePoolParameters{}`. -/
def NodePoolParameters.empty : NodePoolParameters :=
  { Autoscaling := none, Cluster := none, Config := none, InitialNodeCount := none
  , Locations := [], Management := none, MaxPodsConstraint := none, Version := none }

end v1beta1

namespace container

/-- Provider-side autoscaler settings (google.golang.org/api/container/v1beta1). -/
structure NodePoolAutoscaling where
  Autoprovisioned : Bool
  Enabled : Bool
  MaxNodeCount : Int
  MinNodeCount : Int
deriving DecidableEq

/-- Provider-side accelerator entry. -/
structure AcceleratorConfig where
  AcceleratorCount : Int
  AcceleratorType : String
deriving DecidableEq

/-- Provider-side sandbox settings. -/
structure SandboxConfig where
  SandboxType : String
deriving DecidableEq

/-- Provider-side shielded-instance settings. -/
structure ShieldedInstanceConfig where
  EnableIntegrityMonitoring : Bool
  EnableSecureBoot : Bool
deriving DecidableEq

/-- Provider-side node taint. -/
structure NodeTaint where
  Effect : String
  Key : String
  Value : String
deriving DecidableEq

/-- Provider-side workload metadata settings. -/
structure WorkloadMetadataConfig where
  NodeMetadata : String
deriving DecidableEq

/-- Provider-side node configuration. -/
structure NodeConfig where
  Accelerators : List (Option AcceleratorConfig)
  DiskSizeGb : Int
  DiskType : String
  ImageType : String
  Labels : List (String × String)
  LocalSsdCount : Int
  MachineType : String
  Metadata : List (String × String)
  MinCpuPlatform : String
  OauthScopes : List String
  Preemptible : Bool
  SandboxConfig : Option SandboxConfig
  ServiceAccount : String
  ShieldedInstanceConfig : Option ShieldedInstanceConfig
  Tags : List String
  Taints : List (Option NodeTaint)
  WorkloadMetadataConfig : Option WorkloadMetadataConfig
deriving DecidableEq

/-- Provider-side auto-upgrade settings. -/
structure AutoUpgradeOptions where
  AutoUpgradeStartTime : String
  Description : String
deriving DecidableEq

/-- Provider-side node-management settings. -/
structure NodeManagement where
  AutoRepair : Bool
  AutoUpgrade : Bool
  UpgradeOptions : Option AutoUpgradeOptions
deriving DecidableEq

/-- Provider-side pods-per-node constraint. -/
structure MaxPodsConstraint where
  MaxPodsPerNode : Int
deriving DecidableEq

/-- Provider-side diagnostic condition. -/
structure StatusCondition where
  Code : String
  Message : String
deriving DecidableEq

/-- The provider's node-pool object. -/
structure NodePool where
  Autoscaling : Option NodePoolAutoscaling
  Conditions : List (Option StatusCondition)
  Config : Option NodeConfig
  InitialNodeCount : Int
  InstanceGroupUrls : List String
  Locations : List String
  Management : Option NodeManagement
  MaxPodsConstraint : Option MaxPodsConstraint
  Name : String
  PodIpv4CidrSize : Int
  SelfLink : String
  Status : String
  StatusMessage : String
  Version : String
deriving DecidableEq

/-- The provider's partial node-pool update request. -/
structure UpdateNodePoolRequest where
  ImageType : String
  Locations : List String
  NodeVersion : String
  WorkloadMetadataConfig : Option WorkloadMetadataConfig
deriving DecidableEq

/-- The Go zero value `container.NodePool{}`. -/
def NodePool.empty : NodePool :=
  { Autoscaling := none, Conditions := [], Config := none, InitialNodeCount := 0
  , InstanceGroupUrls := [], Locations := [], Management := none
  , MaxPodsConstraint := none, Name := "", PodIpv4CidrSize := 0, SelfLink := ""
  , Status := "", StatusMessage := "", Version := "" }

end container

namespace gcp

/-- Modelled from the spec: pkg/clients helper Int64Value — the value of a
possibly-nil int64 pointer, zero when nil. -/
def Int64Value (i : Option Int) : Int := i.getD 0

/-- Modelled from the spec: pkg/clients helper StringValue — the value of a
possibly-nil string pointer, empty when nil. -/
def StringValue (s : Option String) : String := s.getD ""

/-- Modelled from the spec: pkg/clients helper BoolValue — the value of a
possibly-nil bool pointer, false when nil. -/
def BoolValue (b : Option Bool) : Bool := b.getD false

/-- Modelled from the spec: pkg/clients helper LateInitializeInt64 — keeps the
current value when it is set, and adopts the observed value only when that
value is non-zero, so a zero observation never materializes as a set field
(required by the spec's no-spurious-diff round trip, §8). -/
def LateInitializeInt64 (i : Option Int) (obs : Int) : Option Int :=
  if i.isSome ∨ obs = 0 then i else some obs

/-- Modelled from the spec: pkg/clients helper LateInitializeString — keeps the
current value when set; adopts the observed string only when it is non-empty. -/
def LateInitializeString (s : Option String) (obs : String) : Option String :=
  if s.isSome ∨ obs = "" then s else some obs

/-- Modelled from the spec: pkg/clients helper LateInitializeBool — keeps the
current value when set; adopts the observed bool only when it is true. -/
def LateInitializeBool (b : Option Bool) (obs : Bool) : Option Bool :=
  if b.isSome ∨ obs = false then b else some obs

/-- Modelled from the spec: pkg/clients helper LateInitializeStringSlice —
keeps the current list when it is non-empty, otherwise adopts the observed
list wholesale (never merged element-wise, §4.3). -/
def LateInitializeStringSlice (s obs : List String) : List String :=
  if s ≠ [] ∨ obs = [] then s else obs

/-- Modelled from the spec: pkg/clients helper LateInitializeStringMap —
keeps the current map when it is non-empty, otherwise adopts the observed
map wholesale. -/
def LateInitializeStringMap (s obs : List (String × String)) : List (String × String) :=
  if s ≠ [] ∨ obs = [] then s else obs

end gcp

namespace nodepool

/-- The type of update a node pool needs (part_001 lines 34-44). -/
inductive UpdateKind where
  | NoUpdate
  | AutoscalingUpdate
  | ManagementUpdate
  | SizeUpdate
  | GeneralUpdate
deriving DecidableEq

/-- GenerateAutoscaling (part_001 lines 63-75): when the desired autoscaling
sub-structure is present, set the provider pool's autoscaler from it. -/
def GenerateAutoscaling (inp : Option v1beta1.NodePoolAutoscaling)
    (pool : container.NodePool) : container.NodePool :=
  match inp with
  | none => pool
  | some a =>
    { pool with Autoscaling := some {
        Autoprovisioned := gcp.BoolValue a.Autoprovisioned
      , Enabled := gcp.BoolValue a.Enabled
      , MaxNodeCount := gcp.Int64Value a.MaxNodeCount
      , MinNodeCount := gcp.Int64Value a.MinNodeCount } }

/-- GenerateConfig (part_001 lines 77-135): when the desired node config is
present, build the provider config; nil entries of the accelerator and taint
slices are skipped. -/
def GenerateConfig (inp : Option v1beta1.NodeConfig)
    (pool : container.NodePool) : container.NodePool :=
  match inp with
  | none => pool
  | some c =>
    let out : container.NodeConfig :=
      { Accelerators := []
      , DiskSizeGb := gcp.Int64Value c.DiskSizeGb
      , DiskType := gcp.StringValue c.DiskType
      , ImageType := gcp.StringValue c.ImageType
      , Labels := c.Labels
      , LocalSsdCount := gcp.Int64Value c.LocalSsdCount
      , MachineType := gcp.StringValue c.MachineType
      , Metadata := c.Metadata
      , MinCpuPlatform := gcp.StringValue c.MinCPUPlatform
      , OauthScopes := c.OauthScopes
      , Preemptible := gcp.BoolValue c.Preemptible
      , SandboxConfig := none
      , ServiceAccount := gcp.StringValue c.ServiceAccount
      , ShieldedInstanceConfig := none
      , Tags := c.Tags
      , Taints := []
      , WorkloadMetadataConfig := none }
    let out := { out with Accelerators :=
      (c.Accelerators.filterMap id).map (fun (a : v1beta1.AcceleratorConfig) =>
        some { AcceleratorCount := a.AcceleratorCount
             , AcceleratorType := a.AcceleratorType }) }
    let out := match c.SandboxConfig with
      | none => out
      | some s => { out with SandboxConfig := some { SandboxType := s.SandboxType } }
    let out := match c.ShieldedInstanceConfig with
      | none => out
      | some s => { out with ShieldedInstanceConfig := some {
            EnableIntegrityMonitoring := gcp.BoolValue s.EnableIntegrityMonitoring
          , EnableSecureBoot := gcp.BoolValue s.EnableSecureBoot } }
    let out := { out with Taints :=
      (c.Taints.filterMap id).map (fun (t : v1beta1.NodeTaint) =>
        some { Effect := t.Effect, Key := t.Key, Value := t.Value }) }
    let out := match c.WorkloadMetadataConfig with
      | none => out
      | some w => { out with WorkloadMetadataConfig := some { NodeMetadata := w.NodeMetadata } }
    { pool with Config := some out }

/-- GenerateManagement (part_001 lines 137-147). -/
def GenerateManagement (inp : Option v1beta1.NodeManagementSpec)
    (pool : container.NodePool) : container.NodePool :=
  match inp with
  | none => pool
  | some m =>
    { pool with Management := some {
        AutoRepair := gcp.BoolValue m.AutoRepair
      , AutoUpgrade := gcp.BoolValue m.AutoUpgrade
      , UpgradeOptions := none } }

/-- GenerateMaxPodsConstraint (part_001 lines 149-158). -/
def GenerateMaxPodsConstraint (inp : Option v1beta1.MaxPodsConstraint)
    (pool : container.NodePool) : container.NodePool :=
  match inp with
  | none => pool
  | some mp =>
    { pool with MaxPodsConstraint := some { MaxPodsPerNode := mp.MaxPodsPerNode } }

/-- GenerateNodePool (part_001 lines 46-61): the provider create payload built
from the desired parameters. -/
def GenerateNodePool (inp : v1beta1.NodePoolParameters) (name : String) :
    container.NodePool :=
  let pool : container.NodePool :=
    { container.NodePool.empty with
      InitialNodeCount := gcp.Int64Value inp.InitialNodeCount
    , Locations := inp.Locations
    , Name := name
    , Version := gcp.StringValue inp.Version }
  let pool := GenerateAutoscaling inp.Autoscaling pool
  let pool := GenerateConfig inp.Config pool
  let pool := GenerateManagement inp.Management pool
  GenerateMaxPodsConstraint inp.MaxPodsConstraint pool

/-- GenerateObservation (part_001 lines 160-190): the read-side projection of
the provider object, skipping nil condition entries. -/
def GenerateObservation (inp : container.NodePool) : v1beta1.NodePoolObservation :=
  { Conditions := (inp.Conditions.filterMap id).map (fun (c : container.StatusCondition) =>
      some { Code := c.Code, Message := c.Message })
  , InstanceGroupUrls := inp.InstanceGroupUrls
  , Management :=
      match inp.Management with
      | none => none
      | some m =>
        match m.UpgradeOptions with
        | none => none
        | some u => some { UpgradeOptions := some {
              AutoUpgradeStartTime := u.AutoUpgradeStartTime
            , Description := u.Description } }
  , PodIpv4CidrSize := inp.PodIpv4CidrSize
  , SelfLink := inp.SelfLink
  , Status := inp.Status
  , StatusMessage := inp.StatusMessage }

/-- GenerateNodePoolUpdate (part_001 lines 192-210): the partial update
request for a general update.  The Go function takes the parameters through
a pointer that every caller fills; it is modelled by value. -/
def GenerateNodePoolUpdate (inp : v1beta1.NodePoolParameters) :
    container.UpdateNodePoolRequest :=
  let o : container.UpdateNodePoolRequest :=
    { ImageType := ""
    , Locations := inp.Locations
    , NodeVersion := gcp.StringValue inp.Version
    , WorkloadMetadataConfig := none }
  match inp.Config with
  | none => o
  | some c =>
    let o := { o with ImageType := gcp.StringValue c.ImageType }
    match c.WorkloadMetadataConfig with
    | none => o
    | some w => { o with WorkloadMetadataConfig := some { NodeMetadata := w.NodeMetadata } }

/-- The autoscaling block of LateInitializeSpec (part_001 lines 214-223). -/
def lateInitAutoscaling (spec : v1beta1.NodePoolParameters)
    (inp : container.NodePool) : v1beta1.NodePoolParameters :=
  match inp.Autoscaling with
  | none => spec
  | some ia =>
    let s := spec.Autoscaling.getD v1beta1.NodePoolAutoscaling.empty
    { spec with Autoscaling := some {
        Autoprovisioned := gcp.LateInitializeBool s.Autoprovisioned ia.Autoprovisioned
      , Enabled := gcp.LateInitializeBool s.Enabled ia.Enabled
      , MaxNodeCount := gcp.LateInitializeInt64 s.MaxNodeCount ia.MaxNodeCount
      , MinNodeCount := gcp.LateInitializeInt64 s.MinNodeCount ia.MinNodeCount } }

/-- The body of the config block of LateInitializeSpec (part_001 lines
230-284), acting on the (possibly freshly allocated) spec config.  The source
dereferences observed accelerator and taint entries without a nil check; a
nil entry there would be a Go panic, modelled as keeping the entry absent
(no claim depends on that point). -/
def lateInitNodeConfig (c : v1beta1.NodeConfig) (ic : container.NodeConfig) :
    v1beta1.NodeConfig :=
  let c := { c with Accelerators :=
    if ic.Accelerators ≠ [] ∧ c.Accelerators = [] then
      (ic.Accelerators.map (Option.map (fun (a : container.AcceleratorConfig) =>
        { AcceleratorCount := a.AcceleratorCount, AcceleratorType := a.AcceleratorType })))
    else c.Accelerators }
  let c :=
    { c with
      DiskSizeGb := gcp.LateInitializeInt64 c.DiskSizeGb ic.DiskSizeGb
    , DiskType := gcp.LateInitializeString c.DiskType ic.DiskType
    , ImageType := gcp.LateInitializeString c.ImageType ic.ImageType
    , Labels := gcp.LateInitializeStringMap c.Labels ic.Labels
    , LocalSsdCount := gcp.LateInitializeInt64 c.LocalSsdCount ic.LocalSsdCount
    , MachineType := gcp.LateInitializeString c.MachineType ic.MachineType
    , Metadata := gcp.LateInitializeStringMap c.Metadata ic.Metadata
    , MinCPUPlatform := gcp.LateInitializeString c.MinCPUPlatform ic.MinCpuPlatform
    , OauthScopes := gcp.LateInitializeStringSlice c.OauthScopes ic.OauthScopes
    , Preemptible := gcp.LateInitializeBool c.Preemptible ic.Preemptible }
  let c := { c with SandboxConfig :=
    match ic.SandboxConfig with
    | none => c.SandboxConfig
    | some s =>
      if c.SandboxConfig = none then some { SandboxType := s.SandboxType }
      else c.SandboxConfig }
  let c := { c with ServiceAccount := gcp.LateInitializeString c.ServiceAccount ic.ServiceAccount }
  let c := { c with ShieldedInstanceConfig :=
    match ic.ShieldedInstanceConfig with
    | none => c.ShieldedInstanceConfig
    | some is =>
      let sh := c.ShieldedInstanceConfig.getD v1beta1.ShieldedInstanceConfig.empty
      some { EnableIntegrityMonitoring :=
               gcp.LateInitializeBool sh.EnableIntegrityMonitoring is.EnableIntegrityMonitoring
           , EnableSecureBoot := gcp.LateInitializeBool sh.EnableSecureBoot is.EnableSecureBoot } }
  let c := { c with Tags := gcp.LateInitializeStringSlice c.Tags ic.Tags }
  let c := { c with Taints :=
    if ic.Taints ≠ [] ∧ c.Taints = [] then
      (ic.Taints.map (Option.map (fun (t : container.NodeTaint) =>
        { Effect := t.Effect, Key := t.Key, Value := t.Value })))
    else c.Taints }
  { c with WorkloadMetadataConfig :=
    match ic.WorkloadMetadataConfig with
    | none => c.WorkloadMetadataConfig
    | some w =>
      if c.WorkloadMetadataConfig = none then some { NodeMetadata := w.NodeMetadata }
      else c.WorkloadMetadataConfig }

/-- The config block of LateInitializeSpec (part_001 lines 225-285). -/
def lateInitConfig (spec : v1beta1.NodePoolParameters)
    (inp : container.NodePool) : v1beta1.NodePoolParameters :=
  match inp.Config with
  | none => spec
  | some ic =>
    { spec with Config := some (lateInitNodeConfig (spec.Config.getD v1beta1.NodeConfig.empty) ic) }

/-- The management block of LateInitializeSpec (part_001 lines 290-297). -/
def lateInitManagement (spec : v1beta1.NodePoolParameters)
    (inp : container.NodePool) : v1beta1.NodePoolParameters :=
  match inp.Management with
  | none => spec
  | some im =>
    let m := spec.Management.getD v1beta1.NodeManagementSpec.empty
    { spec with Management := some {
        AutoRepair := gcp.LateInitializeBool m.AutoRepair im.AutoRepair
      , AutoUpgrade := gcp.LateInitializeBool m.AutoUpgrade im.AutoUpgrade } }

/-- The max-pods block of LateInitializeSpec (part_001 lines 299-303). -/
def lateInitMaxPods (spec : v1beta1.NodePoolParameters)
    (inp : container.NodePool) : v1beta1.NodePoolParameters :=
  match inp.MaxPodsConstraint with
  | none => spec
  | some mp =>
    { spec with MaxPodsConstraint :=
      if spec.MaxPodsConstraint = none then some { MaxPodsPerNode := mp.MaxPodsPerNode }
      else spec.MaxPodsConstraint }

/-- LateInitializeSpec (part_001 lines 212-306): fills unassigned spec fields
from the observed provider object, in the source's block order. -/
def LateInitializeSpec (spec : v1beta1.NodePoolParameters)
    (inp : container.NodePool) : v1beta1.NodePoolParameters :=
  let spec := lateInitAutoscaling spec inp
  let spec := lateInitConfig spec inp
  let spec :=
    { spec with
      InitialNodeCount := gcp.LateInitializeInt64 spec.InitialNodeCount inp.InitialNodeCount
    , Locations := gcp.LateInitializeStringSlice spec.Locations inp.Locations }
  let spec := lateInitManagement spec inp
  let spec := lateInitMaxPods spec inp
  { spec with Version := gcp.LateInitializeString spec.Version inp.Version }

/-- IsUpToDate (part_001 lines 308-326): reconstructs parameters from the
observed object by late-initializing an empty spec, then compares the named
sub-structures in fixed priority order. -/
def IsUpToDate (inp : v1beta1.NodePoolParameters) (currentState : container.NodePool) :
    Bool × UpdateKind :=
  let currentParams := LateInitializeSpec v1beta1.NodePoolParameters.empty currentState
  if inp.Autoscaling ≠ currentParams.Autoscaling then (false, .AutoscalingUpdate)
  else if inp.Management ≠ currentParams.Management then (false, .ManagementUpdate)
  else if inp ≠ currentParams then (false, .GeneralUpdate)
  else (true, .NoUpdate)

end nodepool

namespace nodepool

/-- Go pointer dereference made explicit: reading through a nil pointer is
the error case.  Used by the Checked mirrors of the adapter functions to
show every dereference the source performs is guarded. -/
def deref : Option α → Except String α
  | some a => Except.ok a
  | none => Except.error "nil pointer dereference"

/-- One step of a Go `for _, x := range l { if x != nil { acc = append(acc, f(*x)) } }`
loop, with the dereference explicit. -/
def appendNonNil (f : α → β) (acc : List β) (a? : Option α) : Except String (List β) :=
  if a?.isSome then do
    let a ← deref a?
    pure (acc ++ [f a])
  else pure acc

/-- GenerateAutoscaling with every pointer dereference explicit. -/
def GenerateAutoscalingChecked (inp : Option v1beta1.NodePoolAutoscaling)
    (pool : container.NodePool) : Except String container.NodePool :=
  if inp.isSome then do
    let a ← deref inp
    pure { pool with Autoscaling := some {
        Autoprovisioned := gcp.BoolValue a.Autoprovisioned
      , Enabled := gcp.BoolValue a.Enabled
      , MaxNodeCount := gcp.Int64Value a.MaxNodeCount
      , MinNodeCount := gcp.Int64Value a.MinNodeCount } }
  else pure pool

/-- GenerateConfig with every pointer dereference explicit, the loops over
the accelerator and taint slices included. -/
def GenerateConfigChecked (inp : Option v1beta1.NodeConfig)
    (pool : container.NodePool) : Except String container.NodePool :=
  if inp.isSome then do
    let c ← deref inp
    let out : container.NodeConfig :=
      { Accelerators := []
      , DiskSizeGb := gcp.Int64Value c.DiskSizeGb
      , DiskType := gcp.StringValue c.DiskType
      , ImageType := gcp.StringValue c.ImageType
      , Labels := c.Labels
      , LocalSsdCount := gcp.Int64Value c.LocalSsdCount
      , MachineType := gcp.StringValue c.MachineType
      , Metadata := c.Metadata
      , MinCpuPlatform := gcp.StringValue c.MinCPUPlatform
      , OauthScopes := c.OauthScopes
      , Preemptible := gcp.BoolValue c.Preemptible
      , SandboxConfig := none
      , ServiceAccount := gcp.StringValue c.ServiceAccount
      , ShieldedInstanceConfig := none
      , Tags := c.Tags
      , Taints := []
      , WorkloadMetadataConfig := none }
    let accels ← c.Accelerators.foldlM (appendNonNil
      (fun (a : v1beta1.AcceleratorConfig) =>
        (some { AcceleratorCount := a.AcceleratorCount
              , AcceleratorType := a.AcceleratorType } : Option container.AcceleratorConfig))) []
    let out := { out with Accelerators := accels }
    let out ← if c.SandboxConfig.isSome then do
        let s ← deref c.SandboxConfig
        pure { out with SandboxConfig := some { SandboxType := s.SandboxType } }
      else pure out
    let out ← if c.ShieldedInstanceConfig.isSome then do
        let s ← deref c.ShieldedInstanceConfig
        pure { out with ShieldedInstanceConfig := some {
            EnableIntegrityMonitoring := gcp.BoolValue s.EnableIntegrityMonitoring
          , EnableSecureBoot := gcp.BoolValue s.EnableSecureBoot } }
      else pure out
    let taints ← c.Taints.foldlM (appendNonNil
      (fun (t : v1beta1.NodeTaint) =>
        (some { Effect := t.Effect, Key := t.Key, Value := t.Value } : Option container.NodeTaint))) []
    let out := { out with Taints := taints }
    let out ← if c.WorkloadMetadataConfig.isSome then do
        let w ← deref c.WorkloadMetadataConfig
        pure { out with WorkloadMetadataConfig := some { NodeMetadata := w.NodeMetadata } }
      else pure out
    pure { pool with Config := some out }
  else pure pool

/-- GenerateManagement with every pointer dereference explicit. -/
def GenerateManagementChecked (inp : Option v1beta1.NodeManagementSpec)
    (pool : container.NodePool) : Except String container.NodePool :=
  if inp.isSome then do
    let m ← deref inp
    pure { pool with Management := some {
        AutoRepair := gcp.BoolValue m.AutoRepair
      , AutoUpgrade := gcp.BoolValue m.AutoUpgrade
      , UpgradeOptions := none } }
  else pure pool

/-- GenerateMaxPodsConstraint with every pointer dereference explicit. -/
def GenerateMaxPodsConstraintChecked (inp : Option v1beta1.MaxPodsConstraint)
    (pool : container.NodePool) : Except String container.NodePool :=
  if inp.isSome then do
    let mp ← deref inp
    pure { pool with MaxPodsConstraint := some { MaxPodsPerNode := mp.MaxPodsPerNode } }
  else pure pool

/-- GenerateNodePool with every pointer dereference explicit. -/
def GenerateNodePoolChecked (inp : v1beta1.NodePoolParameters) (name : String) :
    Except String container.NodePool := do
  let pool : container.NodePool :=
    { container.NodePool.empty with
      InitialNodeCount := gcp.Int64Value inp.InitialNodeCount
    , Locations := inp.Locations
    , Name := name
    , Version := gcp.StringValue inp.Version }
  let pool ← GenerateAutoscalingChecked inp.Autoscaling pool
  let pool ← GenerateConfigChecked inp.Config pool
  let pool ← GenerateManagementChecked inp.Management pool
  GenerateMaxPodsConstraintChecked inp.MaxPodsConstraint pool

/-- GenerateObservation with every pointer dereference explicit; the source
guards `in.Management.UpgradeOptions` behind short-circuit nil checks of
both pointers. -/
def GenerateObservationChecked (inp : container.NodePool) :
    Except String v1beta1.NodePoolObservation := do
  let conds ← inp.Conditions.foldlM (appendNonNil
    (fun (c : container.StatusCondition) =>
      (some { Code := c.Code, Message := c.Message } : Option v1beta1.StatusCondition))) []
  let o : v1beta1.NodePoolObservation :=
    { Conditions := conds
    , InstanceGroupUrls := inp.InstanceGroupUrls
    , Management := none
    , PodIpv4CidrSize := inp.PodIpv4CidrSize
    , SelfLink := inp.SelfLink
    , Status := inp.Status
    , StatusMessage := inp.StatusMessage }
  if inp.Management.isSome then do
    let m ← deref inp.Management
    if m.UpgradeOptions.isSome then do
      let u ← deref m.UpgradeOptions
      pure { o with Management := some { UpgradeOptions := some {
          AutoUpgradeStartTime := u.AutoUpgradeStartTime
        , Description := u.Description } } }
    else pure o
  else pure o

/-- GenerateNodePoolUpdate with every pointer dereference explicit. -/
def GenerateNodePoolUpdateChecked (inp : v1beta1.NodePoolParameters) :
    Except String container.UpdateNodePoolRequest := do
  let o : container.UpdateNodePoolRequest :=
    { ImageType := ""
    , Locations := inp.Locations
    , NodeVersion := gcp.StringValue inp.Version
    , WorkloadMetadataConfig := none }
  if inp.Config.isSome then do
    let c ← deref inp.Config
    let o := { o with ImageType := gcp.StringValue c.ImageType }
    if c.WorkloadMetadataConfig.isSome then do
      let w ← deref c.WorkloadMetadataConfig
      pure { o with WorkloadMetadataConfig := some { NodeMetadata := w.NodeMetadata } }
    else pure o
  else pure o

end nodepool

namespace container

/-- The provider's cluster object (google.golang.org/api/container/v1beta1):
the fields the modelled controller paths read.  The cluster-level adapter
functions of pkg/clients/container that consume the rest of the structure
are not among the given source files and stay abstract (see Observe). -/
structure Cluster where
  Name : String
  Status : String
  StatusMessage : String
deriving DecidableEq

end container

namespace v1beta1

/-- Modelled from the spec: the observed-state snapshot of a GKE cluster
(apis/compute/v1beta1 GKEClusterObservation) — the lifecycle status enum and
its message, copied verbatim from the provider object (§4.1). -/
structure GKEClusterObservation where
  Status : String
  StatusMessage : String
deriving DecidableEq

/-- Modelled from the spec: apis/compute/v1beta1 cluster lifecycle states. -/
def ClusterStateRunning : String := "RUNNING"

/-- Modelled from the spec: the provisioning lifecycle state. -/
def ClusterStateProvisioning : String := "PROVISIONING"

/-- Modelled from the spec: the unspecified lifecycle state. -/
def ClusterStateUnspecified : String := "STATUS_UNSPECIFIED"

/-- Modelled from the spec: the degraded lifecycle state. -/
def ClusterStateDegraded : String := "DEGRADED"

/-- Modelled from the spec: the errored lifecycle state. -/
def ClusterStateError : String := "ERROR"

/-- Modelled from the spec: the reconciling lifecycle state. -/
def ClusterStateReconciling : String := "RECONCILING"

end v1beta1

namespace gke

/-- Modelled from the spec: pkg/clients/container GenerateObservation for
clusters — the lossless read-side projection copying the provider's status
fields verbatim (§4.1 ToObservedState). -/
def GenerateObservation (c : container.Cluster) : v1beta1.GKEClusterObservation :=
  { Status := c.Status, StatusMessage := c.StatusMessage }

end gke

namespace controller

/-- The readiness-type conditions the controller sets
(crossplane-runtime v1alpha1: Available, Creating, Unavailable, Deleting all
share the one Ready condition type, so at most one is retained). -/
inductive ConditionType where
  | Available
  | Creating
  | Unavailable
  | Deleting
deriving DecidableEq

/-- The status of the managed GKECluster resource: the observed-state
snapshot, the retained readiness condition and the bindable mark. -/
structure GKEClusterStatus where
  AtProvider : v1beta1.GKEClusterObservation
  Ready : Option ConditionType
  Bindable : Bool
deriving DecidableEq

/-- The managed GKECluster resource.  The cluster-level parameter type
(apis/compute/v1beta1 GKEClusterParameters) is not among the given source
files and none of the modelled control flow inspects it, so it stays a type
parameter `P`. -/
structure GKECluster (P : Type) where
  ForProvider : P
  Status : GKEClusterStatus
  ExternalName : String
deriving DecidableEq

/-- The dynamically-typed managed resource handed to the reconciler: either
the expected GKECluster kind or some other kind (the failed type assertion
`mg.(*v1beta1.GKECluster)`). -/
inductive Managed (P : Type) where
  | gke (cr : GKECluster P)
  | other (name : String)
deriving DecidableEq

/-- A provider API error: either the distinguishable not-found response or
some other failure. -/
inductive GCPError where
  | notFound
  | transientFailure (msg : String)
deriving DecidableEq

/-- Modelled from the spec: pkg/clients gcp.IsErrorNotFound — whether an
error value (possibly nil) is the provider's not-found response (§6). -/
def IsErrorNotFound : Option GCPError → Bool
  | some .notFound => true
  | _ => false

/-- The wrapped errors cluster.go returns: each constructor is an
`errors.Wrap`/`errors.New` with the operation-context message constant of
the source (errNotCluster, errGetCluster, ...). -/
inductive CtrlError where
  | notCluster
  | getProvider (e : String)
  | getProviderSecret (e : String)
  | newClient (e : GCPError)
  | getCluster (e : GCPError)
  | managedUpdateFailed (e : String)
  | createCluster (e : GCPError)
  | updateCluster (e : GCPError)
  | deleteCluster (e : GCPError)
deriving DecidableEq

/-- The remote calls a controller operation can issue, in order. -/
inductive RemoteCall where
  | kubeGetProvider
  | kubeGetSecret
  | kubeUpdateManaged
  | clusterGet (name : String)
  | clusterCreate
  | clusterUpdate (name : String)
  | clusterDelete (name : String)
deriving DecidableEq

/-- The observation the generic reconciler consumes
(crossplane-runtime resource.ExternalObservation).  The connection-details
bundle the source also returns is produced by functions outside the given
source files and no claim concerns it, so it is not modelled. -/
structure ExternalObservation where
  ResourceExists : Bool
  ResourceUpToDate : Bool
deriving DecidableEq

/-- The status-enum switch of external.Observe (cluster.go lines 164-172):
maps the observed lifecycle state to the local readiness condition; RUNNING
also marks the resource bindable (resource.SetBindable).  Any other state
leaves the conditions as they are. -/
def setClusterStateConditions (cr : GKECluster P) : GKECluster P :=
  if cr.Status.AtProvider.Status = v1beta1.ClusterStateRunning then
    { cr with Status := { cr.Status with Ready := some .Available, Bindable := true } }
  else if cr.Status.AtProvider.Status = v1beta1.ClusterStateProvisioning then
    { cr with Status := { cr.Status with Ready := some .Creating } }
  else if cr.Status.AtProvider.Status = v1beta1.ClusterStateUnspecified
      ∨ cr.Status.AtProvider.Status = v1beta1.ClusterStateDegraded
      ∨ cr.Status.AtProvider.Status = v1beta1.ClusterStateError
      ∨ cr.Status.AtProvider.Status = v1beta1.ClusterStateReconciling then
    { cr with Status := { cr.Status with Ready := some .Unavailable } }
  else cr

/-- external.Observe (cluster.go lines 145-181), with the effects of the two
remote calls it can make passed in explicitly: `getResult` is the outcome of
the provider Get, `kubeUpdateResult` the outcome (some = failure message) of
persisting a late-initialized spec.  The cluster-level adapter functions,
whose sources are not given, are parameters: `lateInit` for
gke.LateInitializeSpec, `deepEqual` for reflect.DeepEqual on the spec, and
`isUpToDate` for the boolean of gke.IsUpToDate.  Returns the (possibly
mutated) resource, the issued remote calls in order, and the result. -/
def Observe (lateInit : P → container.Cluster → P) (deepEqual : P → P → Bool)
    (isUpToDate : P → container.Cluster → Bool)
    (getResult : Except GCPError container.Cluster)
    (kubeUpdateResult : Option String) (mg : Managed P) :
    Managed P × List RemoteCall × Except CtrlError ExternalObservation :=
  match mg with
  | .other o => (.other o, [], .error .notCluster)
  | .gke cr =>
    match getResult with
    | .error e =>
      (.gke cr, [.clusterGet cr.ExternalName],
        if IsErrorNotFound (some e) then
          .ok { ResourceExists := false, ResourceUpToDate := false }
        else .error (.getCluster e))
    | .ok existing =>
      let cr := { cr with Status := { cr.Status with AtProvider := gke.GenerateObservation existing } }
      let currentSpec := cr.ForProvider
      let cr := { cr with ForProvider := lateInit cr.ForProvider existing }
      let finish := fun (trace : List RemoteCall) =>
        let cr := setClusterStateConditions cr
        (Managed.gke cr, trace,
          Except.ok { ResourceExists := true
                    , ResourceUpToDate := isUpToDate cr.ForProvider existing
                      : ExternalObservation })
      if deepEqual currentSpec cr.ForProvider then
        finish [.clusterGet cr.ExternalName]
      else
        match kubeUpdateResult with
        | some ke =>
          (.gke cr, [.clusterGet cr.ExternalName, .kubeUpdateManaged],
            .error (.managedUpdateFailed ke))
        | none => finish [.clusterGet cr.ExternalName, .kubeUpdateManaged]

/-- gkeConnecter.Connect (cluster.go lines 116-137): the type assertion,
the two kube reads (provider object, then its secret) and the client
construction, each with its outcome passed in.  The constructed client value
itself carries no modelled state. -/
def Connect (providerGetResult : Except String Unit)
    (secretGetResult : Except String Unit) (newServiceResult : Option GCPError)
    (mg : Managed P) : List RemoteCall × Except CtrlError Unit :=
  match mg with
  | .other _ => ([], .error .notCluster)
  | .gke _ =>
    match providerGetResult with
    | .error e => ([.kubeGetProvider], .error (.getProvider e))
    | .ok _ =>
      match secretGetResult with
      | .error e => ([.kubeGetProvider, .kubeGetSecret], .error (.getProviderSecret e))
      | .ok _ =>
        match newServiceResult with
        | some e => ([.kubeGetProvider, .kubeGetSecret], .error (.newClient e))
        | none => ([.kubeGetProvider, .kubeGetSecret], .ok ())

/-- external.Create (cluster.go lines 183-199): the type assertion, then one
provider create call whose payload (gke.GenerateCluster of the spec) is a
pure computation. -/
def Create (createResult : Option GCPError) (mg : Managed P) :
    Managed P × List RemoteCall × Except CtrlError Unit :=
  match mg with
  | .other o => (.other o, [], .error .notCluster)
  | .gke cr =>
    match createResult with
    | some e => (.gke cr, [.clusterCreate], .error (.createCluster e))
    | none => (.gke cr, [.clusterCreate], .ok ())

/-- external.Update (cluster.go lines 201-220): the type assertion, a fresh
provider Get of the cluster, the up-to-date check against the freshly
fetched object, and — only when not up to date — the provider update call
returned by gke.IsUpToDate. -/
def Update (isUpToDate : P → container.Cluster → Bool)
    (getResult : Except GCPError container.Cluster)
    (updateResult : Option GCPError) (mg : Managed P) :
    Managed P × List RemoteCall × Except CtrlError Unit :=
  match mg with
  | .other o => (.other o, [], .error .notCluster)
  | .gke cr =>
    match getResult with
    | .error e => (.gke cr, [.clusterGet cr.ExternalName], .error (.getCluster e))
    | .ok existing =>
      if isUpToDate cr.ForProvider existing then
        (.gke cr, [.clusterGet cr.ExternalName], .ok ())
      else
        match updateResult with
        | some e =>
          (.gke cr, [.clusterGet cr.ExternalName, .clusterUpdate cr.ExternalName],
            .error (.updateCluster e))
        | none =>
          (.gke cr, [.clusterGet cr.ExternalName, .clusterUpdate cr.ExternalName], .ok ())

/-- external.Delete (cluster.go lines 222-234): the type assertion, setting
the Deleting condition before the remote call, then one provider delete call
whose not-found failure is swallowed (`gcp.IsErrorNotFound`). -/
def Delete (deleteResult : Option GCPError) (mg : Managed P) :
    Managed P × List RemoteCall × Option CtrlError :=
  match mg with
  | .other o => (.other o, [], some .notCluster)
  | .gke cr =>
    let cr := { cr with Status := { cr.Status with Ready := some .Deleting } }
    if IsErrorNotFound deleteResult then
      (.gke cr, [.clusterDelete cr.ExternalName], none)
    else
      match deleteResult with
      | some e => (.gke cr, [.clusterDelete cr.ExternalName], some (.deleteCluster e))
      | none => (.gke cr, [.clusterDelete cr.ExternalName], none)

end controller

/-- A set optional field survives: whenever the old field holds a value, the
new field holds the same value. -/
@[reducible] def keepsSome {α : Type} (o n : Option α) : Prop := ∀ v, o = some v → n = some v

/-- A non-empty collection survives unchanged (lists and maps are only ever
adopted wholesale into an empty collection, never merged). -/
@[reducible] def keepsList {α : Type} (o n : List α) : Prop := o ≠ [] → n = o

/-- Set autoscaling leaf fields survive. -/
@[reducible] def autoscalingSetKept (a b : v1beta1.NodePoolAutoscaling) : Prop :=
  keepsSome a.Autoprovisioned b.Autoprovisioned ∧ keepsSome a.Enabled b.Enabled
  ∧ keepsSome a.MaxNodeCount b.MaxNodeCount ∧ keepsSome a.MinNodeCount b.MinNodeCount

/-- Set shielded-instance leaf fields survive. -/
@[reducible] def shieldedSetKept (a b : v1beta1.ShieldedInstanceConfig) : Prop :=
  keepsSome a.EnableIntegrityMonitoring b.EnableIntegrityMonitoring
  ∧ keepsSome a.EnableSecureBoot b.EnableSecureBoot

/-- Set management leaf fields survive. -/
@[reducible] def managementSetKept (a b : v1beta1.NodeManagementSpec) : Prop :=
  keepsSome a.AutoRepair b.AutoRepair ∧ keepsSome a.AutoUpgrade b.AutoUpgrade

/-- Set node-config fields survive: set scalar pointers and non-empty
collections are untouched; a present sandbox or workload-metadata object is
untouched wholesale; a present shielded-instance object keeps its set leaf
fields. -/
@[reducible] def nodeConfigSetKept (a b : v1beta1.NodeConfig) : Prop :=
  keepsList a.Accelerators b.Accelerators
  ∧ keepsSome a.DiskSizeGb b.DiskSizeGb
  ∧ keepsSome a.DiskType b.DiskType
  ∧ keepsSome a.ImageType b.ImageType
  ∧ keepsList a.Labels b.Labels
  ∧ keepsSome a.LocalSsdCount b.LocalSsdCount
  ∧ keepsSome a.MachineType b.MachineType
  ∧ keepsList a.Metadata b.Metadata
  ∧ keepsSome a.MinCPUPlatform b.MinCPUPlatform
  ∧ keepsList a.OauthScopes b.OauthScopes
  ∧ keepsSome a.Preemptible b.Preemptible
  ∧ keepsSome a.SandboxConfig b.SandboxConfig
  ∧ keepsSome a.ServiceAccount b.ServiceAccount
  ∧ (∀ sh, a.ShieldedInstanceConfig = some sh →
      ∃ sh2, b.ShieldedInstanceConfig = some sh2 ∧ shieldedSetKept sh sh2)
  ∧ keepsList a.Tags b.Tags
  ∧ keepsList a.Taints b.Taints
  ∧ keepsSome a.WorkloadMetadataConfig b.WorkloadMetadataConfig

/-- All explicitly set parts of a node-pool spec survive: set scalar
pointers, non-empty collections and the cluster reference are untouched; a
present nested object stays present and keeps its own set fields. -/
@[reducible] def paramsSetKept (p q : v1beta1.NodePoolParameters) : Prop :=
  (∀ a, p.Autoscaling = some a →
      ∃ a2, q.Autoscaling = some a2 ∧ autoscalingSetKept a a2)
  ∧ q.Cluster = p.Cluster
  ∧ (∀ c, p.Config = some c →
      ∃ c2, q.Config = some c2 ∧ nodeConfigSetKept c c2)
  ∧ keepsSome p.InitialNodeCount q.InitialNodeCount
  ∧ keepsList p.Locations q.Locations
  ∧ (∀ m, p.Management = some m →
      ∃ m2, q.Management = some m2 ∧ managementSetKept m m2)
  ∧ keepsSome p.MaxPodsConstraint q.MaxPodsConstraint
  ∧ keepsSome p.Version q.Version

/-- A desired spec whose autoscaling, management and general fields all
differ from an empty observed pool. -/
def samplePriorityParams : v1beta1.NodePoolParameters :=
  { v1beta1.NodePoolParameters.empty with
    Autoscaling := some
      { Autoprovisioned := none, Enabled := some true
      , MaxNodeCount := some 3, MinNodeCount := some 1 }
  , Management := some { AutoRepair := some true, AutoUpgrade := none }
  , Version := some "1.14" }

/-- A desired spec with every optional sub-structure absent but the cluster
reference set. -/
def clusterOnlyParams : v1beta1.NodePoolParameters :=
  { v1beta1.NodePoolParameters.empty with Cluster := some "projects/p/locations/l/clusters/c" }

/-- A desired spec with every optional sub-structure absent and non-zero
scalar fields. -/
def roundTripParams : v1beta1.NodePoolParameters :=
  { v1beta1.NodePoolParameters.empty with
    InitialNodeCount := some 3, Locations := ["us-central1-a"], Version := some "1.14" }

/-- A desired spec with a present but fully unset autoscaling object. -/
def partialAutoscalingParams : v1beta1.NodePoolParameters :=
  { v1beta1.NodePoolParameters.empty with
    Autoscaling := some v1beta1.NodePoolAutoscaling.empty }

/-- An observed pool with autoscaling enabled. -/
def observedAutoscaledPool : container.NodePool :=
  { container.NodePool.empty with Autoscaling := some {
      Autoprovisioned := false, Enabled := true, MaxNodeCount := 3, MinNodeCount := 1 } }

/-- A managed GKECluster resource before a reconcile cycle, with a stale
observed status (the spec parameters instantiated by a number). -/
def sampleCR : controller.GKECluster Nat :=
  { ForProvider := 0
  , Status := { AtProvider := { Status := "OLD", StatusMessage := "" }
              , Ready := none, Bindable := false }
  , ExternalName := "c1" }

/-- A provider cluster object reported running. -/
def sampleCluster : container.Cluster :=
  { Name := "c1", Status := "RUNNING", StatusMessage := "ok" }

/-- `sampleCR` as external.Observe leaves it when the spec persist fails:
the observed state is already overwritten, the spec late-initialized. -/
def sampleCRAfterFailedPersist : controller.GKECluster Nat :=
  { ForProvider := 1
  , Status := { AtProvider := { Status := "RUNNING", StatusMessage := "ok" }
              , Ready := none, Bindable := false }
  , ExternalName := "c1" }

/-! Helper lemmas about the late-initialization helpers. -/

theorem lateInitializeInt64_keeps (i : Option Int) (o : Int) :
    keepsSome i (gcp.LateInitializeInt64 i o) := by
  intro v hv
  simp [gcp.LateInitializeInt64, hv]

theorem lateInitializeString_keeps (s : Option String) (o : String) :
    keepsSome s (gcp.LateInitializeString s o) := by
  intro v hv
  simp [gcp.LateInitializeString, hv]

theorem lateInitializeBool_keeps (b : Option Bool) (o : Bool) :
    keepsSome b (gcp.LateInitializeBool b o) := by
  intro v hv
  simp [gcp.LateInitializeBool, hv]

theorem lateInitializeStringSlice_keeps (s o : List String) :
    keepsList s (gcp.LateInitializeStringSlice s o) := by
  intro h
  simp [gcp.LateInitializeStringSlice, h]

theorem lateInitializeStringMap_keeps (s o : List (String × String)) :
    keepsList s (gcp.LateInitializeStringMap s o) := by
  intro h
  simp [gcp.LateInitializeStringMap, h]

theorem lateInitializeStringSlice_nil (o : List String) :
    gcp.LateInitializeStringSlice [] o = o := by
  by_cases h : o = [] <;> simp [gcp.LateInitializeStringSlice, h]

theorem keepsSome_refl {α : Type} (o : Option α) : keepsSome o o := fun _ hv => hv

theorem keepsList_refl {α : Type} (l : List α) : keepsList l l := fun _ => rfl

/-- C10 — the boolean of IsUpToDate is true exactly on the NoUpdate
classification, and the classification is never the declared-but-unused
SizeUpdate (it is always one of the other four). -/
theorem c10_flag_matches_classification :
    ∀ (inp : v1beta1.NodePoolParameters) (cur : container.NodePool),
      ((nodepool.IsUpToDate inp cur).1 = true ↔ (nodepool.IsUpToDate inp cur).2 = .NoUpdate)
    ∧ (nodepool.IsUpToDate inp cur).2 ≠ .SizeUpdate
    ∧ ((nodepool.IsUpToDate inp cur).2 = .NoUpdate
       ∨ (nodepool.IsUpToDate inp cur).2 = .AutoscalingUpdate
       ∨ (nodepool.IsUpToDate inp cur).2 = .ManagementUpdate
       ∨ (nodepool.IsUpToDate inp cur).2 = .GeneralUpdate) := by
  intro inp cur
  unfold nodepool.IsUpToDate
  by_cases h1 : inp.Autoscaling ≠
      (nodepool.LateInitializeSpec v1beta1.NodePoolParameters.empty cur).Autoscaling <;>
  by_cases h2 : inp.Management ≠
      (nodepool.LateInitializeSpec v1beta1.NodePoolParameters.empty cur).Management <;>
  by_cases h3 : inp ≠ nodepool.LateInitializeSpec v1beta1.NodePoolParameters.empty cur <;>
  simp_all

/-- C1 — the first differing category in the fixed order autoscaling,
management, general decides the classification: an autoscaling difference
against the reconstructed parameters yields AutoscalingUpdate no matter what
else differs, a management difference is reported only with autoscaling
equal, a general difference only with both equal, and full equality yields
NoUpdate. -/
theorem c1_classification_priority :
    ∀ (inp : v1beta1.NodePoolParameters) (cur : container.NodePool),
      (inp.Autoscaling ≠ (nodepool.LateInitializeSpec v1beta1.NodePoolParameters.empty cur).Autoscaling →
        nodepool.IsUpToDate inp cur = (false, .AutoscalingUpdate))
    ∧ (inp.Autoscaling = (nodepool.LateInitializeSpec v1beta1.NodePoolParameters.empty cur).Autoscaling →
       inp.Management ≠ (nodepool.LateInitializeSpec v1beta1.NodePoolParameters.empty cur).Management →
        nodepool.IsUpToDate inp cur = (false, .ManagementUpdate))
    ∧ (inp.Autoscaling = (nodepool.LateInitializeSpec v1beta1.NodePoolParameters.empty cur).Autoscaling →
       inp.Management = (nodepool.LateInitializeSpec v1beta1.NodePoolParameters.empty cur).Management →
       inp ≠ nodepool.LateInitializeSpec v1beta1.NodePoolParameters.empty cur →
        nodepool.IsUpToDate inp cur = (false, .GeneralUpdate))
    ∧ (inp = nodepool.LateInitializeSpec v1beta1.NodePoolParameters.empty cur →
        nodepool.IsUpToDate inp cur = (true, .NoUpdate)) := by
  intro inp cur
  refine ⟨fun h1 => ?_, fun h1 h2 => ?_, fun h1 h2 h3 => ?_, fun h => ?_⟩ <;>
    simp_all [nodepool.IsUpToDate]

/-- C1 witness: a desired spec whose autoscaling, management and remaining
fields all differ from the empty observed pool is classified
AutoscalingUpdate. -/
theorem c1_witness :
    nodepool.IsUpToDate samplePriorityParams container.NodePool.empty
      = (false, .AutoscalingUpdate) :=
  (c1_classification_priority samplePriorityParams container.NodePool.empty).1 (by decide)

/-- C4 counterexample — a desired spec with every optional sub-structure
(autoscaling, config, management, max-pods constraint) absent but the
cluster reference set does NOT round-trip to (true, NoUpdate): the cluster
reference has no counterpart on the provider object, so the reconstructed
parameters never contain it and the general comparison reports drift. -/
theorem c4_counterexample :
    clusterOnlyParams.Autoscaling = none ∧ clusterOnlyParams.Config = none
  ∧ clusterOnlyParams.Management = none ∧ clusterOnlyParams.MaxPodsConstraint = none
  ∧ nodepool.IsUpToDate clusterOnlyParams (nodepool.GenerateNodePool clusterOnlyParams "np")
      = (false, .GeneralUpdate) := by
  decide

/-- C4 (amended) — for a desired spec whose optional sub-structures are all
absent, GenerateNodePool sets no corresponding optional field on the built
provider object; and provided the fields with no or no faithful provider
counterpart cannot be confused with the provider's zero values — the cluster
reference unset, the initial node count not a pointer to zero, the version
not a pointer to the empty string — IsUpToDate on the generated object
returns (true, NoUpdate). -/
theorem c4_empty_optionals_no_spurious_diff :
    ∀ (p : v1beta1.NodePoolParameters) (name : String),
      p.Autoscaling = none → p.Config = none → p.Management = none →
      p.MaxPodsConstraint = none → p.Cluster = none →
      p.InitialNodeCount ≠ some 0 → p.Version ≠ some "" →
      (nodepool.GenerateNodePool p name).Autoscaling = none
    ∧ (nodepool.GenerateNodePool p name).Config = none
    ∧ (nodepool.GenerateNodePool p name).Management = none
    ∧ (nodepool.GenerateNodePool p name).MaxPodsConstraint = none
    ∧ nodepool.IsUpToDate p (nodepool.GenerateNodePool p name) = (true, .NoUpdate) := by
  intro p name hA hC hM hMP hCl hI hV
  obtain ⟨A, Cl, Cfg, I, L, M, MP, V⟩ := p
  simp only at hA hC hM hMP hCl hI hV
  subst hA hC hM hMP hCl
  rcases I with _ | n <;> rcases V with _ | v <;>
    simp_all [nodepool.GenerateNodePool, nodepool.GenerateAutoscaling,
      nodepool.GenerateConfig, nodepool.GenerateManagement,
      nodepool.GenerateMaxPodsConstraint, nodepool.IsUpToDate,
      nodepool.LateInitializeSpec, nodepool.lateInitAutoscaling,
      nodepool.lateInitConfig, nodepool.lateInitManagement, nodepool.lateInitMaxPods,
      gcp.Int64Value, gcp.StringValue, gcp.LateInitializeInt64,
      gcp.LateInitializeString, lateInitializeStringSlice_nil,
      container.NodePool.empty, v1beta1.NodePoolParameters.empty]

/-- C4 witness: a spec with absent sub-structures, a non-zero node count, a
location and a version round-trips with no spurious diff. -/
theorem c4_witness :
    nodepool.IsUpToDate roundTripParams (nodepool.GenerateNodePool roundTripParams "np")
      = (true, .NoUpdate) :=
  (c4_empty_optionals_no_spurious_diff roundTripParams "np" rfl rfl rfl rfl rfl
    (by decide) (by decide)).2.2.2.2

/-- C3 counterexample — late-initialization is not additive at the
granularity of whole present sub-structures: a spec whose autoscaling object
is explicitly present (with unset inner fields) does not keep that field
equal to its old value; the observed inner values are merged into it. -/
theorem c3_counterexample :
    partialAutoscalingParams.Autoscaling = some v1beta1.NodePoolAutoscaling.empty
  ∧ (nodepool.LateInitializeSpec partialAutoscalingParams observedAutoscaledPool).Autoscaling
      ≠ some v1beta1.NodePoolAutoscaling.empty := by
  decide

/-- C8 — every controller operation handed an object that is not a
GKECluster returns the type-mismatch error immediately, issues no remote
call at all, and returns the object unchanged. -/
theorem c8_type_mismatch_no_calls :
    ∀ (P : Type) (o : String)
      (lateInit : P → container.Cluster → P) (deepEqual : P → P → Bool)
      (iutd : P → container.Cluster → Bool)
      (getRes : Except controller.GCPError container.Cluster)
      (kubeRes : Option String) (pg sg : Except String Unit)
      (ns createRes updRes delRes : Option controller.GCPError),
      controller.Connect pg sg ns (controller.Managed.other o : controller.Managed P)
        = ([], .error .notCluster)
    ∧ controller.Observe lateInit deepEqual iutd getRes kubeRes (controller.Managed.other o)
        = (.other o, [], .error .notCluster)
    ∧ controller.Create createRes (controller.Managed.other o : controller.Managed P)
        = (.other o, [], .error .notCluster)
    ∧ controller.Update iutd getRes updRes (controller.Managed.other o)
        = (.other o, [], .error .notCluster)
    ∧ controller.Delete delRes (controller.Managed.other o : controller.Managed P)
        = (.other o, [], some .notCluster) := by
  intro P o lateInit deepEqual iutd getRes kubeRes pg sg ns createRes updRes delRes
  exact ⟨rfl, rfl, rfl, rfl, rfl⟩

/-- C6 — Delete treats the provider's not-found response as success and
returns every other provider error wrapped with the delete-operation
context. -/
theorem c6_delete_notFound_success :
    ∀ (P : Type) (cr : controller.GKECluster P)
      (delRes : Option controller.GCPError),
      (delRes = some .notFound →
        (controller.Delete delRes (controller.Managed.gke cr)).2.2 = none)
    ∧ (∀ e, delRes = some e → e ≠ .notFound →
        (controller.Delete delRes (controller.Managed.gke cr)).2.2
          = some (.deleteCluster e)) := by
  intro P cr delRes
  constructor
  · intro h
    subst h
    rfl
  · intro e he hne
    subst he
    cases e with
    | notFound => exact absurd rfl hne
    | transientFailure m => rfl

/-- C6 witness: deleting an already-absent cluster succeeds. -/
theorem c6_witness :
    (controller.Delete (some .notFound) (controller.Managed.gke sampleCR)).2.2 = none :=
  (c6_delete_notFound_success Nat sampleCR (some .notFound)).1 rfl

/-- C2 counterexample — external.Update does perform its own remote Get of
the provider object before issuing the update call: on a concrete run the
issued calls are the cluster Get followed by the cluster update. -/
theorem c2_counterexample :
    (controller.Update (fun (_ : Nat) (_ : container.Cluster) => false)
        (Except.ok sampleCluster) none (controller.Managed.gke sampleCR)).2.1
      = [controller.RemoteCall.clusterGet "c1", controller.RemoteCall.clusterUpdate "c1"] := by
  rfl

/-- C2 (amended) — within one cycle, external.Update does not reuse the
object fetched by Observe: it performs its own remote Get and re-runs the
up-to-date check against the freshly fetched object, issuing the provider
update call only when that check reports drift (and nothing when the fresh
object is already up to date); a failed Get aborts the update with the
get-operation error. -/
theorem c2_update_refetches :
    ∀ (P : Type) (iutd : P → container.Cluster → Bool)
      (getRes : Except controller.GCPError container.Cluster)
      (updRes : Option controller.GCPError) (cr : controller.GKECluster P),
      (∀ ex, getRes = Except.ok ex →
          (controller.Update iutd getRes updRes (controller.Managed.gke cr)).2.1
            = controller.RemoteCall.clusterGet cr.ExternalName ::
              (if iutd cr.ForProvider ex then []
               else [controller.RemoteCall.clusterUpdate cr.ExternalName])
        ∧ (iutd cr.ForProvider ex = true →
            (controller.Update iutd getRes updRes (controller.Managed.gke cr)).2.2
              = Except.ok ()))
    ∧ (∀ e, getRes = Except.error e →
        (controller.Update iutd getRes updRes (controller.Managed.gke cr)).2.1
          = [controller.RemoteCall.clusterGet cr.ExternalName]
        ∧ (controller.Update iutd getRes updRes (controller.Managed.gke cr)).2.2
          = Except.error (.getCluster e)) := by
  intro P iutd getRes updRes cr
  constructor
  · intro ex hex
    subst hex
    constructor
    · by_cases h : iutd cr.ForProvider ex
      · simp [controller.Update, h]
      · cases updRes <;> simp [controller.Update, h]
    · intro htrue
      simp [controller.Update, htrue]
  · intro e he
    subst he
    exact ⟨rfl, rfl⟩

/-- C2 witness: with the freshly fetched object already up to date, Update
issues only the Get. -/
theorem c2_witness :
    (controller.Update (fun (_ : Nat) (_ : container.Cluster) => true)
        (Except.ok sampleCluster) none (controller.Managed.gke sampleCR)).2.1
      = [controller.RemoteCall.clusterGet "c1"] := by
  simpa using
    ((c2_update_refetches Nat (fun _ _ => true) (Except.ok sampleCluster) none sampleCR).1
      sampleCluster rfl).1

/-- C5 counterexample — a failed Observe does not always leave Status
untouched: when the provider Get succeeds, late-initialization changes the
spec and persisting it fails, Observe returns the persist error with
Status.AtProvider already overwritten by the new observation. -/
theorem c5_counterexample :
    controller.Observe (fun (_ : Nat) (_ : container.Cluster) => 1) (fun a b => a == b)
        (fun _ _ => true) (Except.ok sampleCluster) (some "conflict")
        (controller.Managed.gke sampleCR)
      = (controller.Managed.gke sampleCRAfterFailedPersist,
         [controller.RemoteCall.clusterGet "c1", controller.RemoteCall.kubeUpdateManaged],
         Except.error (.managedUpdateFailed "conflict"))
  ∧ sampleCRAfterFailedPersist.Status ≠ sampleCR.Status := by
  constructor
  · rfl
  · decide

/-- C5 (amended) — when the remote Get fails, Observe leaves the resource,
its Status included, exactly as it was and (except for the swallowed
not-found) returns the wrapped Get error; when instead the Get succeeds but
persisting the late-initialized spec fails, Observe returns the persist
error with Status.AtProvider already overwritten by the new observation (the
conditions and bindable mark still untouched), so only Status.AtProvider may
reflect a failed Observe. -/
theorem c5_observe_error_status :
    ∀ (P : Type) (lateInit : P → container.Cluster → P) (deepEqual : P → P → Bool)
      (iutd : P → container.Cluster → Bool)
      (getRes : Except controller.GCPError container.Cluster)
      (kubeRes : Option String) (cr : controller.GKECluster P),
      (∀ e, getRes = Except.error e →
        (controller.Observe lateInit deepEqual iutd getRes kubeRes
            (controller.Managed.gke cr)).1 = controller.Managed.gke cr)
    ∧ (∀ e, getRes = Except.error e → e ≠ .notFound →
        (controller.Observe lateInit deepEqual iutd getRes kubeRes
            (controller.Managed.gke cr)).2.2 = Except.error (.getCluster e))
    ∧ (∀ ex ke, getRes = Except.ok ex → kubeRes = some ke →
        deepEqual cr.ForProvider (lateInit cr.ForProvider ex) = false →
        controller.Observe lateInit deepEqual iutd getRes kubeRes
            (controller.Managed.gke cr)
          = (controller.Managed.gke
               { cr with ForProvider := lateInit cr.ForProvider ex
                       , Status := { cr.Status with
                           AtProvider := gke.GenerateObservation ex } }
            , [controller.RemoteCall.clusterGet cr.ExternalName,
               controller.RemoteCall.kubeUpdateManaged]
            , Except.error (.managedUpdateFailed ke))) := by
  intro P lateInit deepEqual iutd getRes kubeRes cr
  refine ⟨?_, ?_, ?_⟩
  · intro e he
    subst he
    cases e <;> rfl
  · intro e he hne
    subst he
    cases e with
    | notFound => exact absurd rfl hne
    | transientFailure m => rfl
  · intro ex ke hex hke hde
    subst hex
    subst hke
    simp [controller.Observe, hde]

/-- C5 witness: a concrete run of the persist-failure branch. -/
theorem c5_witness :
    controller.Observe (fun (_ : Nat) (_ : container.Cluster) => 1) (fun a b => a == b)
        (fun _ _ => true) (Except.ok sampleCluster) (some "boom")
        (controller.Managed.gke sampleCR)
      = (controller.Managed.gke
           { sampleCR with ForProvider := 1
                         , Status := { sampleCR.Status with
                             AtProvider := gke.GenerateObservation sampleCluster } }
        , [controller.RemoteCall.clusterGet "c1", controller.RemoteCall.kubeUpdateManaged]
        , Except.error (.managedUpdateFailed "boom")) :=
  (c5_observe_error_status Nat (fun _ _ => 1) (fun a b => a == b) (fun _ _ => true)
      (Except.ok sampleCluster) (some "boom") sampleCR).2.2 sampleCluster "boom" rfl rfl rfl

theorem setCSC_AtProvider {P : Type} (c : controller.GKECluster P) :
    (controller.setClusterStateConditions c).Status.AtProvider = c.Status.AtProvider := by
  unfold controller.setClusterStateConditions
  split_ifs <;> rfl

theorem setCSC_ForProvider {P : Type} (c : controller.GKECluster P) :
    (controller.setClusterStateConditions c).ForProvider = c.ForProvider := by
  unfold controller.setClusterStateConditions
  split_ifs <;> rfl

theorem setCSC_running {P : Type} (c : controller.GKECluster P)
    (h : c.Status.AtProvider.Status = v1beta1.ClusterStateRunning) :
    (controller.setClusterStateConditions c).Status.Ready = some .Available
  ∧ (controller.setClusterStateConditions c).Status.Bindable = true := by
  unfold controller.setClusterStateConditions
  rw [h]
  simp

theorem setCSC_provisioning {P : Type} (c : controller.GKECluster P)
    (h : c.Status.AtProvider.Status = v1beta1.ClusterStateProvisioning) :
    (controller.setClusterStateConditions c).Status.Ready = some .Creating := by
  unfold controller.setClusterStateConditions
  rw [h, if_neg (by decide), if_pos rfl]

theorem setCSC_unavailable {P : Type} (c : controller.GKECluster P)
    (h : c.Status.AtProvider.Status = v1beta1.ClusterStateUnspecified
       ∨ c.Status.AtProvider.Status = v1beta1.ClusterStateDegraded
       ∨ c.Status.AtProvider.Status = v1beta1.ClusterStateError
       ∨ c.Status.AtProvider.Status = v1beta1.ClusterStateReconciling) :
    (controller.setClusterStateConditions c).Status.Ready = some .Unavailable := by
  unfold controller.setClusterStateConditions
  rcases h with h | h | h | h <;>
    rw [h, if_neg (by decide), if_neg (by decide), if_pos (by decide)]

/-- C7 — on every found provider object (and with the late-initialized spec
persisted when needed), Observe reports ResourceExists = true and maps the
provider's lifecycle status to exactly one local condition: RUNNING to
Available with the resource marked bindable, PROVISIONING to Creating, and
UNSPECIFIED, DEGRADED, ERROR and RECONCILING to Unavailable. -/
theorem c7_status_condition_mapping :
    ∀ (P : Type) (lateInit : P → container.Cluster → P) (deepEqual : P → P → Bool)
      (iutd : P → container.Cluster → Bool) (ex : container.Cluster)
      (kubeRes : Option String) (cr : controller.GKECluster P),
      deepEqual cr.ForProvider (lateInit cr.ForProvider ex) = true ∨ kubeRes = none →
      ∃ cr2,
        (controller.Observe lateInit deepEqual iutd (Except.ok ex) kubeRes
            (controller.Managed.gke cr)).1 = controller.Managed.gke cr2
      ∧ (controller.Observe lateInit deepEqual iutd (Except.ok ex) kubeRes
            (controller.Managed.gke cr)).2.2
          = Except.ok { ResourceExists := true
                      , ResourceUpToDate := iutd cr2.ForProvider ex }
      ∧ cr2.Status.AtProvider = gke.GenerateObservation ex
      ∧ (ex.Status = v1beta1.ClusterStateRunning →
          cr2.Status.Ready = some .Available ∧ cr2.Status.Bindable = true)
      ∧ (ex.Status = v1beta1.ClusterStateProvisioning →
          cr2.Status.Ready = some .Creating)
      ∧ ((ex.Status = v1beta1.ClusterStateUnspecified
          ∨ ex.Status = v1beta1.ClusterStateDegraded
          ∨ ex.Status = v1beta1.ClusterStateError
          ∨ ex.Status = v1beta1.ClusterStateReconciling) →
          cr2.Status.Ready = some .Unavailable) := by
  intro P lateInit deepEqual iutd ex kubeRes cr h
  refine ⟨controller.setClusterStateConditions
    { cr with ForProvider := lateInit cr.ForProvider ex
            , Status := { cr.Status with AtProvider := gke.GenerateObservation ex } }
    , ?_, ?_, ?_, ?_, ?_, ?_⟩
  · by_cases hde : deepEqual cr.ForProvider (lateInit cr.ForProvider ex) = true
    · simp [controller.Observe, hde]
    · rcases h with h | h
      · exact absurd h hde
      · subst h
        simp [controller.Observe, hde]
  · rw [setCSC_ForProvider]
    by_cases hde : deepEqual cr.ForProvider (lateInit cr.ForProvider ex) = true
    · simp [controller.Observe, hde, setCSC_ForProvider]
    · rcases h with h | h
      · exact absurd h hde
      · subst h
        simp [controller.Observe, hde, setCSC_ForProvider]
  · rw [setCSC_AtProvider]
  · intro hst
    exact setCSC_running _ hst
  · intro hst
    exact setCSC_provisioning _ hst
  · intro hst
    exact setCSC_unavailable _ hst

/-- C7 witness: a running cluster yields the Available condition, the
bindable mark and an existing-resource observation. -/
theorem c7_witness :
    ∃ cr2,
      (controller.Observe (fun (p : Nat) (_ : container.Cluster) => p) (fun a b => a == b)
          (fun _ _ => true) (Except.ok sampleCluster) none
          (controller.Managed.gke sampleCR)).1 = controller.Managed.gke cr2
    ∧ (controller.Observe (fun (p : Nat) (_ : container.Cluster) => p) (fun a b => a == b)
          (fun _ _ => true) (Except.ok sampleCluster) none
          (controller.Managed.gke sampleCR)).2.2
        = Except.ok { ResourceExists := true
                    , ResourceUpToDate := (fun (_ : Nat) (_ : container.Cluster) => true) cr2.ForProvider sampleCluster }
    ∧ cr2.Status.AtProvider = gke.GenerateObservation sampleCluster
    ∧ (sampleCluster.Status = v1beta1.ClusterStateRunning →
        cr2.Status.Ready = some .Available ∧ cr2.Status.Bindable = true)
    ∧ (sampleCluster.Status = v1beta1.ClusterStateProvisioning →
        cr2.Status.Ready = some .Creating)
    ∧ ((sampleCluster.Status = v1beta1.ClusterStateUnspecified
        ∨ sampleCluster.Status = v1beta1.ClusterStateDegraded
        ∨ sampleCluster.Status = v1beta1.ClusterStateError
        ∨ sampleCluster.Status = v1beta1.ClusterStateReconciling) →
        cr2.Status.Ready = some .Unavailable) :=
  c7_status_condition_mapping Nat (fun p _ => p) (fun a b => a == b) (fun _ _ => true)
    sampleCluster none sampleCR (Or.inr rfl)

theorem appendNonNil_none {α β : Type} (f : α → β) (acc : List β) :
    nodepool.appendNonNil f acc none = pure acc := rfl

theorem appendNonNil_some {α β : Type} (f : α → β) (acc : List β) (a : α) :
    nodepool.appendNonNil f acc (some a) = Except.ok (acc ++ [f a]) := rfl

theorem except_ok_bind {ε α β : Type} (x : α) (g : α → Except ε β) :
    (Except.ok x >>= g : Except ε β) = g x := rfl

theorem except_pure_eq_ok {ε α : Type} (x : α) : (pure x : Except ε α) = Except.ok x := rfl

theorem foldlM_appendNonNil {α β : Type} (f : α → β) (l : List (Option α)) (acc : List β) :
    l.foldlM (nodepool.appendNonNil f) acc = Except.ok (acc ++ (l.filterMap id).map f) := by
  induction l generalizing acc with
  | nil => simp [List.foldlM, except_pure_eq_ok]
  | cons a? t ih =>
    cases a? with
    | none => simp [List.foldlM_cons, appendNonNil_none, ih]
    | some a => simp [List.foldlM_cons, appendNonNil_some, except_ok_bind, ih]

theorem generateAutoscalingChecked_ok (inp : Option v1beta1.NodePoolAutoscaling)
    (pool : container.NodePool) :
    nodepool.GenerateAutoscalingChecked inp pool
      = Except.ok (nodepool.GenerateAutoscaling inp pool) := by
  cases inp <;> rfl

theorem generateManagementChecked_ok (inp : Option v1beta1.NodeManagementSpec)
    (pool : container.NodePool) :
    nodepool.GenerateManagementChecked inp pool
      = Except.ok (nodepool.GenerateManagement inp pool) := by
  cases inp <;> rfl

theorem generateMaxPodsConstraintChecked_ok (inp : Option v1beta1.MaxPodsConstraint)
    (pool : container.NodePool) :
    nodepool.GenerateMaxPodsConstraintChecked inp pool
      = Except.ok (nodepool.GenerateMaxPodsConstraint inp pool) := by
  cases inp <;> rfl

theorem generateConfigChecked_ok (inp : Option v1beta1.NodeConfig)
    (pool : container.NodePool) :
    nodepool.GenerateConfigChecked inp pool
      = Except.ok (nodepool.GenerateConfig inp pool) := by
  cases inp with
  | none => rfl
  | some c =>
    cases hS : c.SandboxConfig <;> cases hSh : c.ShieldedInstanceConfig <;>
      cases hW : c.WorkloadMetadataConfig <;>
      simp [nodepool.GenerateConfigChecked, nodepool.GenerateConfig,
        foldlM_appendNonNil, except_ok_bind, nodepool.deref, hS, hSh, hW, except_pure_eq_ok]

theorem generateObservationChecked_ok (np : container.NodePool) :
    nodepool.GenerateObservationChecked np
      = Except.ok (nodepool.GenerateObservation np) := by
  cases hM : np.Management with
  | none =>
    simp [nodepool.GenerateObservationChecked, nodepool.GenerateObservation,
      foldlM_appendNonNil, except_ok_bind, hM, except_pure_eq_ok]
  | some m =>
    cases hU : m.UpgradeOptions <;>
      simp [nodepool.GenerateObservationChecked, nodepool.GenerateObservation,
        foldlM_appendNonNil, except_ok_bind, nodepool.deref, hM, hU, except_pure_eq_ok]

theorem generateNodePoolChecked_ok (p : v1beta1.NodePoolParameters) (name : String) :
    nodepool.GenerateNodePoolChecked p name
      = Except.ok (nodepool.GenerateNodePool p name) := by
  simp [nodepool.GenerateNodePoolChecked, nodepool.GenerateNodePool,
    generateAutoscalingChecked_ok, generateConfigChecked_ok,
    generateManagementChecked_ok, generateMaxPodsConstraintChecked_ok, except_ok_bind, except_pure_eq_ok]

theorem generateNodePoolUpdateChecked_ok (p : v1beta1.NodePoolParameters) :
    nodepool.GenerateNodePoolUpdateChecked p
      = Except.ok (nodepool.GenerateNodePoolUpdate p) := by
  cases hC : p.Config with
  | none => simp [nodepool.GenerateNodePoolUpdateChecked, nodepool.GenerateNodePoolUpdate, hC, except_pure_eq_ok]
  | some c =>
    cases hW : c.WorkloadMetadataConfig <;>
      simp [nodepool.GenerateNodePoolUpdateChecked, nodepool.GenerateNodePoolUpdate,
        nodepool.deref, except_ok_bind, hC, hW, except_pure_eq_ok]

/-- C9 — the adapter mapping functions are total: on every input, the
mirrored versions in which each pointer dereference of the source is an
explicit failure point return ok with exactly the pure result — no
dereference is ever reached unguarded, for absent nested structures and nil
accelerator, taint and condition entries included. -/
theorem c9_adapter_functions_total :
    ∀ (p : v1beta1.NodePoolParameters) (name : String)
      (cfg : Option v1beta1.NodeConfig) (pool np : container.NodePool),
      nodepool.GenerateNodePoolChecked p name
        = Except.ok (nodepool.GenerateNodePool p name)
    ∧ nodepool.GenerateConfigChecked cfg pool
        = Except.ok (nodepool.GenerateConfig cfg pool)
    ∧ nodepool.GenerateObservationChecked np
        = Except.ok (nodepool.GenerateObservation np)
    ∧ nodepool.GenerateNodePoolUpdateChecked p
        = Except.ok (nodepool.GenerateNodePoolUpdate p) := by
  intro p name cfg pool np
  exact ⟨generateNodePoolChecked_ok p name, generateConfigChecked_ok cfg pool,
         generateObservationChecked_ok np, generateNodePoolUpdateChecked_ok p⟩
theorem lateInitAutoscaling_Cluster (s : v1beta1.NodePoolParameters) (i : container.NodePool) :
    (nodepool.lateInitAutoscaling s i).Cluster = s.Cluster := by
  cases h : i.Autoscaling <;> simp [nodepool.lateInitAutoscaling, h]

theorem lateInitAutoscaling_Config (s : v1beta1.NodePoolParameters) (i : container.NodePool) :
    (nodepool.lateInitAutoscaling s i).Config = s.Config := by
  cases h : i.Autoscaling <;> simp [nodepool.lateInitAutoscaling, h]

theorem lateInitAutoscaling_InitialNodeCount (s : v1beta1.NodePoolParameters) (i : container.NodePool) :
    (nodepool.lateInitAutoscaling s i).InitialNodeCount = s.InitialNodeCount := by
  cases h : i.Autoscaling <;> simp [nodepool.lateInitAutoscaling, h]

theorem lateInitAutoscaling_Locations (s : v1beta1.NodePoolParameters) (i : container.NodePool) :
    (nodepool.lateInitAutoscaling s i).Locations = s.Locations := by
  cases h : i.Autoscaling <;> simp [nodepool.lateInitAutoscaling, h]

theorem lateInitAutoscaling_Management (s : v1beta1.NodePoolParameters) (i : container.NodePool) :
    (nodepool.lateInitAutoscaling s i).Management = s.Management := by
  cases h : i.Autoscaling <;> simp [nodepool.lateInitAutoscaling, h]

theorem lateInitAutoscaling_MaxPodsConstraint (s : v1beta1.NodePoolParameters) (i : container.NodePool) :
    (nodepool.lateInitAutoscaling s i).MaxPodsConstraint = s.MaxPodsConstraint := by
  cases h : i.Autoscaling <;> simp [nodepool.lateInitAutoscaling, h]

theorem lateInitAutoscaling_Version (s : v1beta1.NodePoolParameters) (i : container.NodePool) :
    (nodepool.lateInitAutoscaling s i).Version = s.Version := by
  cases h : i.Autoscaling <;> simp [nodepool.lateInitAutoscaling, h]

theorem lateInitConfig_Autoscaling (s : v1beta1.NodePoolParameters) (i : container.NodePool) :
    (nodepool.lateInitConfig s i).Autoscaling = s.Autoscaling := by
  cases h : i.Config <;> simp [nodepool.lateInitConfig, h]

theorem lateInitConfig_Cluster (s : v1beta1.NodePoolParameters) (i : container.NodePool) :
    (nodepool.lateInitConfig s i).Cluster = s.Cluster := by
  cases h : i.Config <;> simp [nodepool.lateInitConfig, h]

theorem lateInitConfig_InitialNodeCount (s : v1beta1.NodePoolParameters) (i : container.NodePool) :
    (nodepool.lateInitConfig s i).InitialNodeCount = s.InitialNodeCount := by
  cases h : i.Config <;> simp [nodepool.lateInitConfig, h]

theorem lateInitConfig_Locations (s : v1beta1.NodePoolParameters) (i : container.NodePool) :
    (nodepool.lateInitConfig s i).Locations = s.Locations := by
  cases h : i.Config <;> simp [nodepool.lateInitConfig, h]

theorem lateInitConfig_Management (s : v1beta1.NodePoolParameters) (i : container.NodePool) :
    (nodepool.lateInitConfig s i).Management = s.Management := by
  cases h : i.Config <;> simp [nodepool.lateInitConfig, h]

theorem lateInitConfig_MaxPodsConstraint (s : v1beta1.NodePoolParameters) (i : container.NodePool) :
    (nodepool.lateInitConfig s i).MaxPodsConstraint = s.MaxPodsConstraint := by
  cases h : i.Config <;> simp [nodepool.lateInitConfig, h]

theorem lateInitConfig_Version (s : v1beta1.NodePoolParameters) (i : container.NodePool) :
    (nodepool.lateInitConfig s i).Version = s.Version := by
  cases h : i.Config <;> simp [nodepool.lateInitConfig, h]

theorem lateInitManagement_Autoscaling (s : v1beta1.NodePoolParameters) (i : container.NodePool) :
    (nodepool.lateInitManagement s i).Autoscaling = s.Autoscaling := by
  cases h : i.Management <;> simp [nodepool.lateInitManagement, h]

theorem lateInitManagement_Cluster (s : v1beta1.NodePoolParameters) (i : container.NodePool) :
    (nodepool.lateInitManagement s i).Cluster = s.Cluster := by
  cases h : i.Management <;> simp [nodepool.lateInitManagement, h]

theorem lateInitManagement_Config (s : v1beta1.NodePoolParameters) (i : container.NodePool) :
    (nodepool.lateInitManagement s i).Config = s.Config := by
  cases h : i.Management <;> simp [nodepool.lateInitManagement, h]

theorem lateInitManagement_InitialNodeCount (s : v1beta1.NodePoolParameters) (i : container.NodePool) :
    (nodepool.lateInitManagement s i).InitialNodeCount = s.InitialNodeCount := by
  cases h : i.Management <;> simp [nodepool.lateInitManagement, h]

theorem lateInitManagement_Locations (s : v1beta1.NodePoolParameters) (i : container.NodePool) :
    (nodepool.lateInitManagement s i).Locations = s.Locations := by
  cases h : i.Management <;> simp [nodepool.lateInitManagement, h]

theorem lateInitManagement_MaxPodsConstraint (s : v1beta1.NodePoolParameters) (i : container.NodePool) :
    (nodepool.lateInitManagement s i).MaxPodsConstraint = s.MaxPodsConstraint := by
  cases h : i.Management <;> simp [nodepool.lateInitManagement, h]

theorem lateInitManagement_Version (s : v1beta1.NodePoolParameters) (i : container.NodePool) :
    (nodepool.lateInitManagement s i).Version = s.Version := by
  cases h : i.Management <;> simp [nodepool.lateInitManagement, h]

theorem lateInitMaxPods_Autoscaling (s : v1beta1.NodePoolParameters) (i : container.NodePool) :
    (nodepool.lateInitMaxPods s i).Autoscaling = s.Autoscaling := by
  cases h : i.MaxPodsConstraint <;> simp [nodepool.lateInitMaxPods, h]

theorem lateInitMaxPods_Cluster (s : v1beta1.NodePoolParameters) (i : container.NodePool) :
    (nodepool.lateInitMaxPods s i).Cluster = s.Cluster := by
  cases h : i.MaxPodsConstraint <;> simp [nodepool.lateInitMaxPods, h]

theorem lateInitMaxPods_Config (s : v1beta1.NodePoolParameters) (i : container.NodePool) :
    (nodepool.lateInitMaxPods s i).Config = s.Config := by
  cases h : i.MaxPodsConstraint <;> simp [nodepool.lateInitMaxPods, h]

theorem lateInitMaxPods_InitialNodeCount (s : v1beta1.NodePoolParameters) (i : container.NodePool) :
    (nodepool.lateInitMaxPods s i).InitialNodeCount = s.InitialNodeCount := by
  cases h : i.MaxPodsConstraint <;> simp [nodepool.lateInitMaxPods, h]

theorem lateInitMaxPods_Locations (s : v1beta1.NodePoolParameters) (i : container.NodePool) :
    (nodepool.lateInitMaxPods s i).Locations = s.Locations := by
  cases h : i.MaxPodsConstraint <;> simp [nodepool.lateInitMaxPods, h]

theorem lateInitMaxPods_Management (s : v1beta1.NodePoolParameters) (i : container.NodePool) :
    (nodepool.lateInitMaxPods s i).Management = s.Management := by
  cases h : i.MaxPodsConstraint <;> simp [nodepool.lateInitMaxPods, h]

theorem lateInitMaxPods_Version (s : v1beta1.NodePoolParameters) (i : container.NodePool) :
    (nodepool.lateInitMaxPods s i).Version = s.Version := by
  cases h : i.MaxPodsConstraint <;> simp [nodepool.lateInitMaxPods, h]

theorem autoscalingSetKept_refl (a : v1beta1.NodePoolAutoscaling) : autoscalingSetKept a a :=
  ⟨keepsSome_refl _, keepsSome_refl _, keepsSome_refl _, keepsSome_refl _⟩

theorem shieldedSetKept_refl (sh : v1beta1.ShieldedInstanceConfig) : shieldedSetKept sh sh :=
  ⟨keepsSome_refl _, keepsSome_refl _⟩

theorem managementSetKept_refl (m : v1beta1.NodeManagementSpec) : managementSetKept m m :=
  ⟨keepsSome_refl _, keepsSome_refl _⟩

theorem nodeConfigSetKept_refl (c : v1beta1.NodeConfig) : nodeConfigSetKept c c :=
  ⟨keepsList_refl _, keepsSome_refl _, keepsSome_refl _, keepsSome_refl _, keepsList_refl _,
   keepsSome_refl _, keepsSome_refl _, keepsList_refl _, keepsSome_refl _, keepsList_refl _,
   keepsSome_refl _, keepsSome_refl _, keepsSome_refl _,
   fun sh hsh => ⟨sh, hsh, shieldedSetKept_refl sh⟩,
   keepsList_refl _, keepsList_refl _, keepsSome_refl _⟩

theorem lateInitAutoscaling_kept (s : v1beta1.NodePoolParameters) (i : container.NodePool) :
    ∀ a, s.Autoscaling = some a →
      ∃ a2, (nodepool.lateInitAutoscaling s i).Autoscaling = some a2 ∧ autoscalingSetKept a a2 := by
  intro a ha
  cases h : i.Autoscaling with
  | none => exact ⟨a, by simp [nodepool.lateInitAutoscaling, h, ha], autoscalingSetKept_refl a⟩
  | some ia =>
    exact ⟨{ Autoprovisioned := gcp.LateInitializeBool a.Autoprovisioned ia.Autoprovisioned
           , Enabled := gcp.LateInitializeBool a.Enabled ia.Enabled
           , MaxNodeCount := gcp.LateInitializeInt64 a.MaxNodeCount ia.MaxNodeCount
           , MinNodeCount := gcp.LateInitializeInt64 a.MinNodeCount ia.MinNodeCount }
         , by simp [nodepool.lateInitAutoscaling, h, ha]
         , lateInitializeBool_keeps _ _, lateInitializeBool_keeps _ _
         , lateInitializeInt64_keeps _ _, lateInitializeInt64_keeps _ _⟩

theorem lateInitManagement_kept (s : v1beta1.NodePoolParameters) (i : container.NodePool) :
    ∀ m, s.Management = some m →
      ∃ m2, (nodepool.lateInitManagement s i).Management = some m2 ∧ managementSetKept m m2 := by
  intro m hm
  cases h : i.Management with
  | none => exact ⟨m, by simp [nodepool.lateInitManagement, h, hm], managementSetKept_refl m⟩
  | some im =>
    exact ⟨{ AutoRepair := gcp.LateInitializeBool m.AutoRepair im.AutoRepair
           , AutoUpgrade := gcp.LateInitializeBool m.AutoUpgrade im.AutoUpgrade }
         , by simp [nodepool.lateInitManagement, h, hm]
         , lateInitializeBool_keeps _ _, lateInitializeBool_keeps _ _⟩

theorem lateInitMaxPods_keepsSome (s : v1beta1.NodePoolParameters) (i : container.NodePool) :
    ∀ v, s.MaxPodsConstraint = some v →
      (nodepool.lateInitMaxPods s i).MaxPodsConstraint = some v := by
  intro v hv
  cases h : i.MaxPodsConstraint with
  | none => simp [nodepool.lateInitMaxPods, h, hv]
  | some mp => simp [nodepool.lateInitMaxPods, h, hv]

theorem nodeConfigSetKept_lateInit (c : v1beta1.NodeConfig) (ic : container.NodeConfig) :
    nodeConfigSetKept c (nodepool.lateInitNodeConfig c ic) := by
  unfold nodepool.lateInitNodeConfig
  cases hS : ic.SandboxConfig <;>
  cases hSh : ic.ShieldedInstanceConfig <;>
  cases hW : ic.WorkloadMetadataConfig <;>
  simp only [hS, hSh, hW] <;>
  (repeat' split) <;>
  · refine ⟨?_, ?_, ?_, ?_, ?_, ?_, ?_, ?_, ?_, ?_, ?_, ?_, ?_, ?_, ?_, ?_, ?_⟩ <;>
    first
    | exact keepsSome_refl _
    | exact keepsList_refl _
    | exact lateInitializeInt64_keeps _ _
    | exact lateInitializeString_keeps _ _
    | exact lateInitializeBool_keeps _ _
    | exact lateInitializeStringSlice_keeps _ _
    | exact lateInitializeStringMap_keeps _ _
    | (intro sh hsh; exact ⟨sh, hsh, shieldedSetKept_refl sh⟩)
    | (intro sh hsh;
       simp only [hsh, Option.getD_some];
       exact ⟨_, rfl, lateInitializeBool_keeps _ _, lateInitializeBool_keeps _ _⟩)
    | simp_all [keepsList, keepsSome]

theorem lateInitConfig_kept (s : v1beta1.NodePoolParameters) (i : container.NodePool) :
    ∀ c, s.Config = some c →
      ∃ c2, (nodepool.lateInitConfig s i).Config = some c2 ∧ nodeConfigSetKept c c2 := by
  intro c hc
  cases h : i.Config with
  | none => exact ⟨c, by simp [nodepool.lateInitConfig, h, hc], nodeConfigSetKept_refl c⟩
  | some ic =>
    exact ⟨nodepool.lateInitNodeConfig c ic
         , by simp [nodepool.lateInitConfig, h, hc]
         , nodeConfigSetKept_lateInit c ic⟩

/-- C3 (amended) — late-initialization is additive at the granularity of the
fields it fills: every explicitly set scalar pointer field keeps its value,
every non-empty list or map is kept unchanged (adopted wholesale only into
an empty collection, never merged element-wise), the cluster reference is
never touched, and a present nested object stays present and is recursed
field-by-field with the same guarantees — rather than being kept verbatim
with its unset inner fields. -/
theorem c3_lateInit_additive :
    ∀ (spec : v1beta1.NodePoolParameters) (inp : container.NodePool),
      paramsSetKept spec (nodepool.LateInitializeSpec spec inp) := by
  intro s i
  refine ⟨?_, ?_, ?_, ?_, ?_, ?_, ?_, ?_⟩
  · intro a ha
    simp only [nodepool.LateInitializeSpec, lateInitMaxPods_Autoscaling,
      lateInitManagement_Autoscaling, lateInitConfig_Autoscaling]
    exact lateInitAutoscaling_kept s i a ha
  · simp only [nodepool.LateInitializeSpec, lateInitMaxPods_Cluster,
      lateInitManagement_Cluster, lateInitConfig_Cluster, lateInitAutoscaling_Cluster]
  · intro c hc
    simp only [nodepool.LateInitializeSpec, lateInitMaxPods_Config,
      lateInitManagement_Config]
    exact lateInitConfig_kept _ i c
      (by simpa only [lateInitAutoscaling_Config] using hc)
  · intro v hv
    simp only [nodepool.LateInitializeSpec, lateInitMaxPods_InitialNodeCount,
      lateInitManagement_InitialNodeCount, lateInitConfig_InitialNodeCount,
      lateInitAutoscaling_InitialNodeCount]
    exact lateInitializeInt64_keeps _ _ v hv
  · intro hne
    simp only [nodepool.LateInitializeSpec, lateInitMaxPods_Locations,
      lateInitManagement_Locations, lateInitConfig_Locations,
      lateInitAutoscaling_Locations]
    exact lateInitializeStringSlice_keeps _ _ hne
  · intro m hm
    simp only [nodepool.LateInitializeSpec, lateInitMaxPods_Management]
    exact lateInitManagement_kept _ i m
      (by simpa only [lateInitConfig_Management, lateInitAutoscaling_Management] using hm)
  · intro v hv
    simp only [nodepool.LateInitializeSpec]
    exact lateInitMaxPods_keepsSome _ i v
      (by simpa only [lateInitManagement_MaxPodsConstraint, lateInitConfig_MaxPodsConstraint,
        lateInitAutoscaling_MaxPodsConstraint] using hv)
  · intro v hv
    simp only [nodepool.LateInitializeSpec, lateInitMaxPods_Version,
      lateInitManagement_Version, lateInitConfig_Version, lateInitAutoscaling_Version]
    exact lateInitializeString_keeps _ _ v hv

/-- C3 witness: the additivity guarantees at a concrete spec and observed
pool. -/
theorem c3_witness :
    paramsSetKept samplePriorityParams
      (nodepool.LateInitializeSpec samplePriorityParams observedAutoscaledPool) :=
  c3_lateInit_additive samplePriorityParams observedAutoscaledPool
